import Mathlib

/-!
Shallow embedding of the `StudentsService` and `StudentsController` from
`src/students/students.service.ts` and `src/students/students.controller.ts`.

The service keeps a private field `_cachedStudents : Student[]`, initially
`undefined`; we model it as `Option (List Student)`.  The one remote call
`_fetchStudents` returns the mapped user list from the placeholder API; we
model its result as an explicit parameter `seed : List Student`, and every
operation additionally reports how many times the remote fetch was performed
(`fetches`), so that claims about the fetch being triggered or skipped are
statable.

JavaScript truthiness in the validation check `!student.name ||
!student.matriculationNumber` is modelled exactly: an optional string is
falsy when absent or empty, an optional number is falsy when absent or zero.
-/

/-- A student record, as in `students.model.ts`: a matriculation number and
a name. -/
structure Student where
  matriculationNumber : Int
  name : String
deriving DecidableEq, Repr

/-- The request body of `addStudent`, typed `Partial<Student>` in the
source: both fields may be absent. -/
structure StudentInput where
  matriculationNumber : Option Int
  name : Option String
deriving DecidableEq, Repr

/-- JavaScript falsiness of `student.name` (a possibly-absent string):
`!x` holds for `undefined` and for the empty string. -/
def falsyName : Option String → Bool
  | none => true
  | some s => s == ""

/-- JavaScript falsiness of `student.matriculationNumber` (a possibly-absent
number): `!x` holds for `undefined` and for `0`. -/
def falsyMatNr : Option Int → Bool
  | none => true
  | some n => n == 0

/-- The cast `student as Student` performed on a validated input: both
fields are known present (the defaults are never used on inputs that pass
validation). -/
def StudentInput.toStudent (s : StudentInput) : Student :=
  { matriculationNumber := s.matriculationNumber.getD 0
    name := s.name.getD "" }

/-- The payload and status of the `HttpException` thrown on invalid input. -/
structure HttpError where
  error : String
  status : Nat
deriving DecidableEq, Repr

/-- Result of one service operation: the returned value, the cache field
`_cachedStudents` afterwards, and how many remote fetches were performed. -/
structure OpResult (α : Type) where
  result : α
  cache : Option (List Student)
  fetches : Nat
deriving DecidableEq, Repr

namespace StudentsService

/-- `_getStudents`: populate `_cachedStudents` from the remote fetch when it
is still unset, then return the cached list. -/
def getStudents (seed : List Student) (cache : Option (List Student)) :
    OpResult (List Student) :=
  match cache with
  | none => { result := seed, cache := some seed, fetches := 1 }
  | some cs => { result := cs, cache := some cs, fetches := 0 }

/-- `findAll`: return all cached students via `_getStudents`. -/
def findAll (seed : List Student) (cache : Option (List Student)) :
    OpResult (List Student) :=
  getStudents seed cache

/-- `find(matrNr)`: `students.find(s => s.matriculationNumber === matrNr)`
on the cached list obtained from `_getStudents`. -/
def find (seed : List Student) (matrNr : Int) (cache : Option (List Student)) :
    OpResult (Option Student) :=
  let r := getStudents seed cache
  { result := r.result.find? (fun s => s.matriculationNumber == matrNr)
    cache := r.cache
    fetches := r.fetches }

/-- `_safeAddStudent(student, fetchIfEmpty)`: throw a 400 `HttpException`
when `name` or `matriculationNumber` is falsy; otherwise, when the cache is
unset, set it to the fetched seed (or to `[]` when `fetchIfEmpty` is false),
then push the student and return the push result (the new array length). -/
def safeAddStudent (seed : List Student) (student : StudentInput)
    (fetchIfEmpty : Bool) (cache : Option (List Student)) :
    OpResult (Except HttpError Nat) :=
  if falsyName student.name || falsyMatNr student.matriculationNumber then
    { result := Except.error { error := "Not a valid student!", status := 400 }
      cache := cache
      fetches := 0 }
  else
    match cache with
    | none =>
        let cs := (if fetchIfEmpty then seed else []) ++ [student.toStudent]
        { result := Except.ok cs.length
          cache := some cs
          fetches := if fetchIfEmpty then 1 else 0 }
    | some cs =>
        let cs2 := cs ++ [student.toStudent]
        { result := Except.ok cs2.length
          cache := some cs2
          fetches := 0 }

/-- `addStudent`: calls `_safeAddStudent(student)`, whose `fetchIfEmpty`
parameter defaults to `true`. -/
def addStudent (seed : List Student) (student : StudentInput)
    (cache : Option (List Student)) : OpResult (Except HttpError Nat) :=
  safeAddStudent seed student true cache

end StudentsService

/-- An HTTP response as produced by the `create` handler or by the
framework's handling of the thrown `HttpException`: a status code, an
optional `Location` header, and the optional error payload `{error}`. -/
structure HttpResponse where
  status : Nat
  location : Option String
  errorBody : Option String
deriving DecidableEq, Repr

namespace StudentsController

/-- `POST /students` handler `create`: calls `addStudent`; on success the
`@HttpCode(201)` decorator fixes the status and a `Location` header
`'/students/' + student.matriculationNumber` is appended; a thrown
`HttpException` becomes a response with its status and `{error}` payload. -/
def create (seed : List Student) (student : StudentInput)
    (cache : Option (List Student)) :
    HttpResponse × Option (List Student) :=
  let r := StudentsService.addStudent seed student cache
  match r.result with
  | Except.error e =>
      ({ status := e.status, location := none, errorBody := some e.error },
       r.cache)
  | Except.ok _ =>
      ({ status := 201
         location :=
           some ("/students/" ++ toString (student.matriculationNumber.getD 0))
         errorBody := none },
       r.cache)

end StudentsController

/-- One client-visible operation on the service. -/
inductive Op where
  | list : Op
  | get : Int → Op
  | add : StudentInput → Op
deriving DecidableEq, Repr

/-- Whether an operation is a read (list or get), not an add. -/
def Op.isRead : Op → Bool
  | .add _ => false
  | _ => true

/-- Effect of one operation on the cache, together with the number of
remote fetches it performed. -/
def step (seed : List Student) (cache : Option (List Student)) :
    Op → Option (List Student) × Nat
  | .list =>
      let r := StudentsService.findAll seed cache
      (r.cache, r.fetches)
  | .get n =>
      let r := StudentsService.find seed n cache
      (r.cache, r.fetches)
  | .add s =>
      let r := StudentsService.addStudent seed s cache
      (r.cache, r.fetches)

/-- Run a sequence of operations, returning the final cache and the total
number of remote fetches performed. -/
def run (seed : List Student) (cache : Option (List Student)) :
    List Op → Option (List Student) × Nat
  | [] => (cache, 0)
  | op :: ops =>
      let p := step seed cache op
      let q := run seed p.1 ops
      (q.1, p.2 + q.2)

/-- The lists returned by the `list` operations of a sequence, in order. -/
def listOutputs (seed : List Student) (cache : Option (List Student)) :
    List Op → List (List Student)
  | [] => []
  | op :: ops =>
      (match op with
        | .list => [(StudentsService.findAll seed cache).result]
        | _ => []) ++ listOutputs seed (step seed cache op).1 ops

/-- The students held by a cache state (`undefined` holds none). -/
def storeOf (cache : Option (List Student)) : List Student :=
  cache.getD []

/-! ### Basic lemmas about the service operations -/

/-- A failed validation leaves every part of the operation result alone. -/
theorem safeAdd_invalid (seed : List Student) (s : StudentInput)
    (fetchIfEmpty : Bool) (cache : Option (List Student))
    (h : (falsyName s.name || falsyMatNr s.matriculationNumber) = true) :
    StudentsService.safeAddStudent seed s fetchIfEmpty cache =
      { result := Except.error { error := "Not a valid student!", status := 400 }
        cache := cache
        fetches := 0 } := by
  simp [StudentsService.safeAddStudent, h]

/-- A validated `addStudent` appends to the populated store and returns the
new length; the fetch happens exactly when `_getStudents` would fetch. -/
theorem addStudent_valid (seed : List Student) (s : StudentInput)
    (cache : Option (List Student))
    (h : (falsyName s.name || falsyMatNr s.matriculationNumber) = false) :
    StudentsService.addStudent seed s cache =
      { result := Except.ok
          ((StudentsService.getStudents seed cache).result ++ [s.toStudent]).length
        cache := some
          ((StudentsService.getStudents seed cache).result ++ [s.toStudent])
        fetches := (StudentsService.getStudents seed cache).fetches } := by
  cases cache <;>
    simp [StudentsService.addStudent, StudentsService.safeAddStudent,
      StudentsService.getStudents, h]

/-- Claim C1: `addStudent` raises the 400 validation error exactly when the
input's name or matriculation number is missing or falsy; on any input where
both are present and truthy it succeeds and the cache afterwards is the
populated store (seed fetched when the cache was empty) with the student
appended. -/
theorem C1_addStudent_validation (seed : List Student) (s : StudentInput)
    (cache : Option (List Student)) :
    ((∃ e, (StudentsService.addStudent seed s cache).result = Except.error e ∧
        e.status = 400) ↔
      (falsyName s.name || falsyMatNr s.matriculationNumber) = true) ∧
    ((falsyName s.name || falsyMatNr s.matriculationNumber) = false →
      (∃ n, (StudentsService.addStudent seed s cache).result = Except.ok n) ∧
      (StudentsService.addStudent seed s cache).cache =
        some ((StudentsService.getStudents seed cache).result ++
          [s.toStudent])) := by
  constructor
  · constructor
    · rintro ⟨e, he, -⟩
      by_contra hcond
      rw [Bool.not_eq_true] at hcond
      rw [addStudent_valid seed s cache hcond] at he
      exact Except.noConfusion he
    · intro hcond
      refine ⟨{ error := "Not a valid student!", status := 400 }, ?_, rfl⟩
      simp [StudentsService.addStudent, safeAdd_invalid seed s true cache hcond]
  · intro hcond
    rw [addStudent_valid seed s cache hcond]
    exact ⟨⟨_, rfl⟩, rfl⟩

/-- Witness for C1 at the concrete valid input `{name: "Tina Tester",
matriculationNumber: 42}` on an empty cache and a one-student seed. -/
theorem C1_addStudent_validation_witness :
    (falsyName (some "Tina Tester") || falsyMatNr (some 42)) = false ∧
    ((∃ n, (StudentsService.addStudent [⟨1, "Leanne Graham"⟩]
        ⟨some 42, some "Tina Tester"⟩ none).result = Except.ok n) ∧
      (StudentsService.addStudent [⟨1, "Leanne Graham"⟩]
        ⟨some 42, some "Tina Tester"⟩ none).cache =
        some ((StudentsService.getStudents [⟨1, "Leanne Graham"⟩] none).result ++
          [StudentInput.toStudent ⟨some 42, some "Tina Tester"⟩])) :=
  ⟨by decide,
    (C1_addStudent_validation [⟨1, "Leanne Graham"⟩]
      ⟨some 42, some "Tina Tester"⟩ none).2 (by decide)⟩

/-- Claim C2: `find(id)` returns some student exactly when the (populated)
store holds one with that matriculation number, and any student it returns
is in the store and has that number. -/
theorem C2_find_spec (seed : List Student) (matrNr : Int)
    (cache : Option (List Student)) :
    (∀ s, (StudentsService.find seed matrNr cache).result = some s →
      s ∈ (StudentsService.getStudents seed cache).result ∧
        s.matriculationNumber = matrNr) ∧
    ((StudentsService.find seed matrNr cache).result = none ↔
      ∀ s ∈ (StudentsService.getStudents seed cache).result,
        s.matriculationNumber ≠ matrNr) := by
  constructor
  · intro s hs
    simp only [StudentsService.find] at hs
    refine ⟨List.mem_of_find?_eq_some hs, ?_⟩
    have := List.find?_some hs
    simpa using this
  · simp only [StudentsService.find, List.find?_eq_none]
    constructor
    · intro h s hmem
      have := h s hmem
      simpa using this
    · intro h s hmem
      simpa using h s hmem

/-- Witness for C2 at a concrete store: finding 7 in a seeded two-student
store returns the student with number 7. -/
theorem C2_find_spec_witness :
    (⟨7, "Kurtis Weissnat"⟩ : Student) ∈
      (StudentsService.getStudents
        [⟨3, "Clementine Bauch"⟩, ⟨7, "Kurtis Weissnat"⟩] none).result ∧
    (⟨7, "Kurtis Weissnat"⟩ : Student).matriculationNumber = 7 :=
  (C2_find_spec [⟨3, "Clementine Bauch"⟩, ⟨7, "Kurtis Weissnat"⟩] 7 none).1
    ⟨7, "Kurtis Weissnat"⟩ (by decide)

/-- Claim C3: on an invalid input (missing or falsy name or matriculation
number) `addStudent` fails with the 400 validation error, the cache is left
exactly as it was, and no remote fetch is performed. -/
theorem C3_invalid_add_unchanged (seed : List Student) (s : StudentInput)
    (cache : Option (List Student))
    (h : (falsyName s.name || falsyMatNr s.matriculationNumber) = true) :
    (StudentsService.addStudent seed s cache).result =
      Except.error { error := "Not a valid student!", status := 400 } ∧
    (StudentsService.addStudent seed s cache).cache = cache ∧
    (StudentsService.addStudent seed s cache).fetches = 0 := by
  simp [StudentsService.addStudent, safeAdd_invalid seed s true cache h]

/-- Witness for C3 at the concrete empty input `{}` on an empty cache. -/
theorem C3_invalid_add_unchanged_witness :
    (StudentsService.addStudent [⟨1, "Leanne Graham"⟩] ⟨none, none⟩ none).result =
      Except.error { error := "Not a valid student!", status := 400 } ∧
    (StudentsService.addStudent [⟨1, "Leanne Graham"⟩] ⟨none, none⟩ none).cache =
      none ∧
    (StudentsService.addStudent [⟨1, "Leanne Graham"⟩] ⟨none, none⟩ none).fetches =
      0 :=
  C3_invalid_add_unchanged [⟨1, "Leanne Graham"⟩] ⟨none, none⟩ none (by decide)

/-- The concrete valid input `{name: "Tina Tester", matriculationNumber: 42}`
from the spec's test scenario. -/
def tina : StudentInput := ⟨some 42, some "Tina Tester"⟩

/-- `_getStudents` on a populated cache returns it unchanged, no fetch. -/
theorem getStudents_some (seed cs : List Student) :
    StudentsService.getStudents seed (some cs) =
      { result := cs, cache := some cs, fetches := 0 } := rfl

/-- `_getStudents` on the unset cache caches and returns the seed, one
fetch. -/
theorem getStudents_none (seed : List Student) :
    StudentsService.getStudents seed none =
      { result := seed, cache := some seed, fetches := 1 } := rfl

/-- Claim C4: adding `{name: "Tina Tester", matriculationNumber: 42}` and
then listing yields a list containing that record, and fetching 42 afterwards
returns that record, provided no student of the populated store already
carries number 42 (the real seed uses numbers 1–10). -/
theorem C4_add_tina_then_read (seed : List Student)
    (cache : Option (List Student)) :
    tina.toStudent ∈
      (StudentsService.findAll seed
        (StudentsService.addStudent seed tina cache).cache).result ∧
    ((∀ s ∈ (StudentsService.getStudents seed cache).result,
        s.matriculationNumber ≠ 42) →
      (StudentsService.find seed 42
        (StudentsService.addStudent seed tina cache).cache).result =
        some tina.toStudent) := by
  have hcond : (falsyName tina.name || falsyMatNr tina.matriculationNumber) =
      false := by decide
  rw [addStudent_valid seed tina cache hcond]
  constructor
  · simp [StudentsService.findAll, StudentsService.getStudents]
  · intro h
    have hnone : (StudentsService.getStudents seed cache).result.find?
        (fun s => s.matriculationNumber == (42 : Int)) = none := by
      rw [List.find?_eq_none]
      intro s hmem
      simpa using h s hmem
    simp only [StudentsService.find, getStudents_some, List.find?_append,
      hnone, Option.none_or]
    simp [tina, StudentInput.toStudent]

/-- Witness for C4 on a concrete one-student seed whose number is not 42. -/
theorem C4_add_tina_then_read_witness :
    tina.toStudent ∈
      (StudentsService.findAll [⟨1, "Leanne Graham"⟩]
        (StudentsService.addStudent [⟨1, "Leanne Graham"⟩] tina none).cache).result ∧
    (StudentsService.find [⟨1, "Leanne Graham"⟩] 42
      (StudentsService.addStudent [⟨1, "Leanne Graham"⟩] tina none).cache).result =
      some tina.toStudent :=
  ⟨(C4_add_tina_then_read [⟨1, "Leanne Graham"⟩] none).1,
    (C4_add_tina_then_read [⟨1, "Leanne Graham"⟩] none).2 (by decide)⟩

/-- Counterexample to claim C6: calling the public `addStudent` with the
valid student Tina on the empty cache performs the remote fetch (one fetch,
not zero) and the resulting store is the seed plus Tina, not Tina alone,
because `addStudent` leaves `_safeAddStudent`'s `fetchIfEmpty` parameter at
its default `true`. -/
theorem C6_counterexample :
    (StudentsService.addStudent [⟨1, "Leanne Graham"⟩] tina none).fetches = 1 ∧
    (StudentsService.addStudent [⟨1, "Leanne Graham"⟩] tina none).cache ≠
      some [tina.toStudent] := by
  decide

/-- Claim C6 (amended): a valid `addStudent` on the empty cache does perform
the remote fetch — `fetchIfEmpty` defaults to `true` and `addStudent` never
overrides it — so the resulting store is the seed followed by the added
record; only a direct `_safeAddStudent` call with `fetchIfEmpty = false`
skips the fetch and yields a store holding the added record alone. -/
theorem C6_add_before_read_fetches (seed : List Student) (s : StudentInput)
    (h : (falsyName s.name || falsyMatNr s.matriculationNumber) = false) :
    (StudentsService.addStudent seed s none).fetches = 1 ∧
    (StudentsService.addStudent seed s none).cache =
      some (seed ++ [s.toStudent]) ∧
    (StudentsService.safeAddStudent seed s false none).fetches = 0 ∧
    (StudentsService.safeAddStudent seed s false none).cache =
      some [s.toStudent] := by
  refine ⟨?_, ?_, ?_, ?_⟩ <;>
    simp [addStudent_valid seed s none h, StudentsService.getStudents,
      StudentsService.safeAddStudent, h]

/-- Witness for the amended C6 at Tina on a one-student seed. -/
theorem C6_add_before_read_fetches_witness :
    (StudentsService.addStudent [⟨1, "Leanne Graham"⟩] tina none).fetches = 1 ∧
    (StudentsService.addStudent [⟨1, "Leanne Graham"⟩] tina none).cache =
      some ([⟨1, "Leanne Graham"⟩] ++ [tina.toStudent]) ∧
    (StudentsService.safeAddStudent [⟨1, "Leanne Graham"⟩] tina false none).fetches =
      0 ∧
    (StudentsService.safeAddStudent [⟨1, "Leanne Graham"⟩] tina false none).cache =
      some [tina.toStudent] :=
  C6_add_before_read_fetches [⟨1, "Leanne Graham"⟩] tina (by decide)

/-- Claim C8: the `POST /students` handler responds 201 with a `Location`
header `/students/{id}` for a valid body, and 400 with the `{error: string}`
payload for an invalid one. -/
theorem C8_create_response (seed : List Student) (s : StudentInput)
    (cache : Option (List Student)) :
    ((falsyName s.name || falsyMatNr s.matriculationNumber) = false →
      (StudentsController.create seed s cache).1.status = 201 ∧
      ∀ k, s.matriculationNumber = some k →
        (StudentsController.create seed s cache).1.location =
          some ("/students/" ++ toString k)) ∧
    ((falsyName s.name || falsyMatNr s.matriculationNumber) = true →
      (StudentsController.create seed s cache).1.status = 400 ∧
      (StudentsController.create seed s cache).1.errorBody =
        some "Not a valid student!") := by
  constructor
  · intro h
    constructor
    · simp [StudentsController.create, addStudent_valid seed s cache h]
    · intro k hk
      simp [StudentsController.create, addStudent_valid seed s cache h, hk]
  · intro h
    constructor <;>
      simp [StudentsController.create, StudentsService.addStudent,
        safeAdd_invalid seed s true cache h]

/-- Witness for C8: concrete valid body (201 with Location) and concrete
invalid body (400 with error payload). -/
theorem C8_create_response_witness :
    ((StudentsController.create [⟨1, "Leanne Graham"⟩] tina none).1.status = 201 ∧
      (StudentsController.create [⟨1, "Leanne Graham"⟩] tina none).1.location =
        some "/students/42") ∧
    ((StudentsController.create [⟨1, "Leanne Graham"⟩] ⟨none, some "X"⟩ none).1.status =
        400 ∧
      (StudentsController.create [⟨1, "Leanne Graham"⟩] ⟨none, some "X"⟩ none).1.errorBody =
        some "Not a valid student!") :=
  ⟨⟨((C8_create_response [⟨1, "Leanne Graham"⟩] tina none).1 (by decide)).1,
      ((C8_create_response [⟨1, "Leanne Graham"⟩] tina none).1 (by decide)).2
        42 rfl⟩,
    (C8_create_response [⟨1, "Leanne Graham"⟩] ⟨none, some "X"⟩ none).2
      (by decide)⟩

/-- Claim C9: a valid `addStudent` resolves to the value of `push`, the new
array length, which is the populated store's size plus one; the store after
the call indeed has that many students. -/
theorem C9_add_returns_new_length (seed : List Student) (s : StudentInput)
    (cache : Option (List Student))
    (h : (falsyName s.name || falsyMatNr s.matriculationNumber) = false) :
    (StudentsService.addStudent seed s cache).result =
      Except.ok ((StudentsService.getStudents seed cache).result.length + 1) ∧
    (storeOf (StudentsService.addStudent seed s cache).cache).length =
      (StudentsService.getStudents seed cache).result.length + 1 := by
  simp [addStudent_valid seed s cache h, storeOf]

/-- Witness for C9 at Tina on a one-student seed: the call resolves to 2. -/
theorem C9_add_returns_new_length_witness :
    (StudentsService.addStudent [⟨1, "Leanne Graham"⟩] tina none).result =
      Except.ok ((StudentsService.getStudents [⟨1, "Leanne Graham"⟩] none).result.length + 1) ∧
    (storeOf (StudentsService.addStudent [⟨1, "Leanne Graham"⟩] tina none).cache).length =
      (StudentsService.getStudents [⟨1, "Leanne Graham"⟩] none).result.length + 1 :=
  C9_add_returns_new_length [⟨1, "Leanne Graham"⟩] tina none (by decide)

/-- Claim C10: an input with a non-empty name but matriculation number 0 is
rejected with the 400 validation error — `!student.matriculationNumber`
treats 0 as missing — and the cache is untouched, so a student with number 0
can never be added through `addStudent`. -/
theorem C10_zero_id_rejected (seed : List Student) (nm : String)
    (cache : Option (List Student)) (h : nm ≠ "") :
    (StudentsService.addStudent seed ⟨some 0, some nm⟩ cache).result =
      Except.error { error := "Not a valid student!", status := 400 } ∧
    (StudentsService.addStudent seed ⟨some 0, some nm⟩ cache).cache = cache := by
  have hcond : (falsyName (some nm) || falsyMatNr (some (0 : Int))) = true := by
    simp [falsyName, falsyMatNr]
  simp [StudentsService.addStudent,
    safeAdd_invalid seed ⟨some 0, some nm⟩ true cache hcond]

/-- Witness for C10 at the concrete input `{name: "Zero Zed",
matriculationNumber: 0}`. -/
theorem C10_zero_id_rejected_witness :
    (StudentsService.addStudent [⟨1, "Leanne Graham"⟩] ⟨some 0, some "Zero Zed"⟩ none).result =
      Except.error { error := "Not a valid student!", status := 400 } ∧
    (StudentsService.addStudent [⟨1, "Leanne Graham"⟩] ⟨some 0, some "Zero Zed"⟩ none).cache =
      none :=
  C10_zero_id_rejected [⟨1, "Leanne Graham"⟩] "Zero Zed" none (by decide)

/-! ### Lemmas about operation sequences -/

/-- Once the cache is populated, no operation ever fetches again, and the
cache stays populated. -/
theorem step_some (seed cs : List Student) (op : Op) :
    ∃ cs2, step seed (some cs) op = (some cs2, 0) := by
  cases op with
  | list => exact ⟨cs, rfl⟩
  | get n => exact ⟨cs, rfl⟩
  | add s =>
      by_cases h : (falsyName s.name || falsyMatNr s.matriculationNumber) = true
      · exact ⟨cs, by
          simp [step, StudentsService.addStudent,
            safeAdd_invalid seed s true (some cs) h]⟩
      · rw [Bool.not_eq_true] at h
        exact ⟨cs ++ [s.toStudent], by
          simp [step, addStudent_valid seed s (some cs) h, getStudents_some]⟩

/-- On the unset cache, one operation either leaves it unset with no fetch
(an invalid add) or populates it with exactly one fetch. -/
theorem step_none (seed : List Student) (op : Op) :
    step seed none op = (none, 0) ∨ ∃ cs, step seed none op = (some cs, 1) := by
  cases op with
  | list => exact Or.inr ⟨seed, rfl⟩
  | get n => exact Or.inr ⟨seed, rfl⟩
  | add s =>
      by_cases h : (falsyName s.name || falsyMatNr s.matriculationNumber) = true
      · exact Or.inl (by
          simp [step, StudentsService.addStudent,
            safeAdd_invalid seed s true none h])
      · rw [Bool.not_eq_true] at h
        exact Or.inr ⟨seed ++ [s.toStudent], by
          simp [step, addStudent_valid seed s none h, getStudents_none]⟩

/-- A whole sequence run from a populated cache performs no fetch and ends
populated. -/
theorem run_some (seed : List Student) (cs : List Student) (ops : List Op) :
    ∃ cs2, run seed (some cs) ops = (some cs2, 0) := by
  induction ops generalizing cs with
  | nil => exact ⟨cs, rfl⟩
  | cons op ops ih =>
      obtain ⟨cs1, h1⟩ := step_some seed cs op
      obtain ⟨cs2, h2⟩ := ih cs1
      exact ⟨cs2, by simp [run, h1, h2]⟩

/-- In a read-only sequence started on the unset cache or on a cache equal
to the seed, every `list` operation returns the seed set. -/
theorem listOutputs_reads (seed : List Student) (ops : List Op)
    (hops : ∀ op ∈ ops, op.isRead = true) (cache : Option (List Student))
    (hc : cache = none ∨ cache = some seed) :
    (listOutputs seed cache ops).all (fun out => out == seed) = true := by
  induction ops generalizing cache with
  | nil => simp [listOutputs]
  | cons op ops ih =>
      have hops2 : ∀ o ∈ ops, o.isRead = true := fun o ho =>
        hops o (List.mem_cons_of_mem _ ho)
      cases op with
      | list =>
          rcases hc with rfl | rfl
          · simpa [listOutputs, step, StudentsService.findAll,
              getStudents_none] using ih hops2 (some seed) (Or.inr rfl)
          · simpa [listOutputs, step, StudentsService.findAll,
              getStudents_some] using ih hops2 (some seed) (Or.inr rfl)
      | get n =>
          rcases hc with rfl | rfl
          · simpa [listOutputs, step, StudentsService.find,
              getStudents_none] using ih hops2 (some seed) (Or.inr rfl)
          · simpa [listOutputs, step, StudentsService.find,
              getStudents_some] using ih hops2 (some seed) (Or.inr rfl)
      | add s =>
          have := hops (Op.add s) (List.mem_cons_self _ _)
          simp [Op.isRead] at this

/-- Claim C5: over any operation sequence started on the unset cache the
remote fetch is performed at most once, and a read-only sequence has every
`list` operation return exactly the externally-sourced seed set. -/
theorem C5_fetch_once_list_idempotent (seed : List Student) (ops : List Op) :
    (run seed none ops).2 ≤ 1 ∧
    ((∀ op ∈ ops, op.isRead = true) →
      (listOutputs seed none ops).all (fun out => out == seed) = true) := by
  constructor
  · induction ops with
    | nil => simp [run]
    | cons op ops ih =>
        rcases step_none seed op with h | ⟨cs, h⟩
        · simpa [run, h] using ih
        · obtain ⟨cs2, h2⟩ := run_some seed cs ops
          simp [run, h, h2]
  · intro hops
    exact listOutputs_reads seed ops hops none (Or.inl rfl)

/-- Witness for C5 on a concrete read-only sequence list–get–list over a
one-student seed: at most one fetch, and both listings return the seed. -/
theorem C5_fetch_once_list_idempotent_witness :
    (run [⟨1, "Leanne Graham"⟩] none [Op.list, Op.get 1, Op.list]).2 ≤ 1 ∧
    (listOutputs [⟨1, "Leanne Graham"⟩] none [Op.list, Op.get 1, Op.list]).all
      (fun out => out == [⟨1, "Leanne Graham"⟩]) = true :=
  ⟨(C5_fetch_once_list_idempotent [⟨1, "Leanne Graham"⟩]
      [Op.list, Op.get 1, Op.list]).1,
    (C5_fetch_once_list_idempotent [⟨1, "Leanne Graham"⟩]
      [Op.list, Op.get 1, Op.list]).2 (by decide)⟩

/-- Counterexample to claim C7: ids are not unique in every reachable store
state — adding `{name: "Bob", matriculationNumber: 1}` on the unset cache
with a seed already containing number 1 yields a store whose matriculation
numbers are `[1, 1]`. -/
theorem C7_counterexample :
    ¬ ((storeOf (run [⟨1, "Leanne Graham"⟩] none
        [Op.add ⟨some 1, some "Bob"⟩]).1).map
          Student.matriculationNumber).Nodup := by
  decide

/-- Claim C7 (amended): reads leave a populated store unchanged, hence
preserve uniqueness; `add` performs no duplicate check, so a valid add on a
populated store preserves uniqueness of matriculation numbers exactly when
the added number is not already present — duplicates are reachable
otherwise. -/
theorem C7_uniqueness_amended (seed cs : List Student) (s : StudentInput)
    (k : Int)
    (hvalid : (falsyName s.name || falsyMatNr s.matriculationNumber) = false) :
    ((step seed (some cs) Op.list).1 = some cs ∧
      (step seed (some cs) (Op.get k)).1 = some cs) ∧
    (((storeOf (StudentsService.addStudent seed s (some cs)).cache).map
        Student.matriculationNumber).Nodup ↔
      ((cs.map Student.matriculationNumber).Nodup ∧
        s.matriculationNumber.getD 0 ∉ cs.map Student.matriculationNumber)) := by
  refine ⟨⟨rfl, rfl⟩, ?_⟩
  rw [addStudent_valid seed s (some cs) hvalid]
  simp [storeOf, getStudents_some, StudentInput.toStudent, List.nodup_append]

/-- Witness for the amended C7: on the store `[{1, Leanne Graham}]`, reads
keep the store and adding Tina (number 42, not present) keeps the numbers
unique. -/
theorem C7_uniqueness_amended_witness :
    ((step [⟨1, "Leanne Graham"⟩] (some [⟨1, "Leanne Graham"⟩]) Op.list).1 =
        some [⟨1, "Leanne Graham"⟩] ∧
      (step [⟨1, "Leanne Graham"⟩] (some [⟨1, "Leanne Graham"⟩]) (Op.get 5)).1 =
        some [⟨1, "Leanne Graham"⟩]) ∧
    (((storeOf (StudentsService.addStudent [⟨1, "Leanne Graham"⟩] tina
        (some [⟨1, "Leanne Graham"⟩])).cache).map
          Student.matriculationNumber).Nodup ↔
      (([⟨1, "Leanne Graham"⟩] : List Student).map
          Student.matriculationNumber).Nodup ∧
        tina.matriculationNumber.getD 0 ∉
          ([⟨1, "Leanne Graham"⟩] : List Student).map
            Student.matriculationNumber) :=
  C7_uniqueness_amended [⟨1, "Leanne Graham"⟩] [⟨1, "Leanne Graham"⟩] tina 5
    (by decide)
